import Mathlib

set_option maxRecDepth 100000

/-!
Verification development for the esw-gpio firmware.

The development shallowly embeds the parts of the firmware that the
properties below speak about:

* the GPIO interrupt registers (IF, IEN) and the button thread's flag
  word, with the even-numbered-pins interrupt handler
  `GPIO_EVEN_IRQHandler` acting on them;
* the three LED-toggling loop bodies (`led0`, `led1`, `led2`);
* the button Signal Consumer loop (`button_loop`) as a small-step
  transition relation, with the asynchronous raise of the thread flag
  by the interrupt handler as one of the steps;
* the bounded buzzer reaction pattern (`siren_sound` /
  `ambulance_sound`) and the polling loop `buzzer_tone`, as trace
  producing pin actions;
* the startup configuration sequence of the external interrupt
  (`gpio_external_interrupt_init` followed by
  `gpio_external_interrupt_enable`) as a list of configuration events
  with a state semantics.

Machine integers are modelled as `Nat` with explicit 32-bit masking
where the code relies on the register width.
-/

/-- The 32-bit all-ones mask, used to model bit-clear operations on the
32-bit peripheral registers. -/
def mask32 : Nat := 2 ^ 32 - 1

/-- Interrupt flag for external interrupt number 4 (the button pin),
`0x00000010UL` in the source. -/
def ESWGPIO_EXTI_IF : Nat := 0x10

/-- The thread flag used to signal the button thread, `0x00000001`. -/
def buttonExtIntThreadFlag : Nat := 0x1

/-- The machine state the interrupt handler touches: the GPIO
interrupt-pending register IF, the interrupt-enable register IEN, and
the flag word of the button thread (the only thread the handler ever
signals). -/
structure SysState where
  ifReg : Nat
  ien : Nat
  buttonFlags : Nat
deriving DecidableEq, Repr

/-- Embedding of `GPIO_IntGetEnabled`: the pending-and-enabled
interrupts, i.e. IF masked by IEN. -/
def GPIO_IntGetEnabled (s : SysState) : Nat := s.ifReg &&& s.ien

/-- Embedding of `GPIO_IntClear flags` acting on the IF register: the
given flag bits are cleared, all other bits are untouched. -/
def GPIO_IntClearOp (flags ifr : Nat) : Nat := ifr &&& (mask32 ^^^ flags)

/-- Embedding of `GPIO_EVEN_IRQHandler` from the interrupt-driven
variant: read the pending-and-enabled interrupts; if the button's EXTI
flag is among them, clear exactly that flag and set the button thread's
notification flag; otherwise do nothing. -/
def GPIO_EVEN_IRQHandler (s : SysState) : SysState :=
  let pending := GPIO_IntGetEnabled s
  if pending &&& ESWGPIO_EXTI_IF ≠ 0 then
    { s with ifReg := GPIO_IntClearOp ESWGPIO_EXTI_IF s.ifReg,
             buttonFlags := s.buttonFlags ||| buttonExtIntThreadFlag }
  else s

/-- Embedding of one `led1_loop` body transition
(`GPIO_PinOutToggle`): unconditionally invert the pin output level. -/
def led1_body (b : Bool) : Bool := !b

/-- Embedding of one `led2_loop` body transition: read the output level
with `GPIO_PinOutGet`; if it is set, call `GPIO_PinOutSet`, otherwise
call `GPIO_PinOutClear`. This is exactly what the source does at lines
147-148 of the interrupt variant. -/
def led2_body (b : Bool) : Bool := if b then true else false

/-- Modelled from the spec: the *read-then-invert* transition policy as
the spec words it ("read current output level; if HIGH, drive LOW; else
drive HIGH"), written down only to compare against the code's
`led2_body`. -/
def read_then_invert_spec (b : Bool) : Bool := if b then false else true

/-- Embedding of one `led0_loop` body transition on the pair
(counter, pin level): if the counter is odd (`led_cnt % 2` truthy) the
pin is cleared, otherwise it is set; the counter, a `uint32_t`, is then
incremented with 32-bit wraparound. -/
def led0_step (s : Nat × Bool) : Nat × Bool :=
  ((s.1 + 1) % 2 ^ 32, if s.1 % 2 ≠ 0 then false else true)

/-- The state of `led0_loop` after `n` body transitions, starting as in
the source from counter `0` and pin LOW (the pin is configured with
initial output level 0). -/
def led0_run (n : Nat) : Nat × Bool := led0_step^[n] (0, false)

/-- C1: the spec's read-then-invert policy ("if HIGH, drive LOW; else
drive HIGH") would leave the pin at the opposite level, exactly like the
unconditional toggle of `led1_loop`; but the code of `led2_loop` does
the reverse (if HIGH it drives HIGH, if LOW it drives LOW), so one
execution of its body leaves the pin at the SAME level. Evaluated at
the failing input: pin LOW stays LOW, while both the toggle and the
spec's policy drive it HIGH. The code contradicts its own header
comment, which says all three LEDs are toggled. -/
theorem led2_body_is_identity_not_invert :
    led2_body false = false ∧ led2_body true = true ∧
    led1_body false = true ∧ read_then_invert_spec false = true ∧
    (∀ b : Bool, led2_body b = b) ∧
    (∀ b : Bool, read_then_invert_spec b = led1_body b) := by
  refine ⟨rfl, rfl, rfl, rfl, ?_, ?_⟩ <;> intro b <;> cases b <;> rfl

/-- Helper: the mask `mask32 ^^^ ESWGPIO_EXTI_IF` used by the clear
operation keeps every bit below 32 except bit 4. -/
theorem clearMask_testBit (i : Nat) :
    (mask32 ^^^ ESWGPIO_EXTI_IF).testBit i = (decide (i < 32)).xor (decide (i = 4)) := by
  have h16 : ESWGPIO_EXTI_IF = 2 ^ 4 := by decide
  rw [mask32, h16, Nat.testBit_xor, Nat.testBit_two_pow_sub_one, Nat.testBit_two_pow]
  cases Decidable.em (i = 4) with
  | inl h => subst h; rfl
  | inr h => simp [h, Ne.symm h]

/-- C2: whenever the pending-and-enabled register contains the button's
EXTI bit (bit 4, mask 0x10), one run of the handler clears exactly that
pending bit of the IF register (every other IF bit keeps its value, as
does the whole IEN register), and posts the notification flag to the
button thread's flag word; no other field of the state changes. -/
theorem irq_handler_button_pending_frame (s : SysState)
    (hw : s.ifReg < 2 ^ 32)
    (h : GPIO_IntGetEnabled s &&& ESWGPIO_EXTI_IF ≠ 0) :
    (GPIO_EVEN_IRQHandler s).ifReg.testBit 4 = false ∧
    (∀ i : Nat, i ≠ 4 →
      (GPIO_EVEN_IRQHandler s).ifReg.testBit i = s.ifReg.testBit i) ∧
    (GPIO_EVEN_IRQHandler s).buttonFlags
      = s.buttonFlags ||| buttonExtIntThreadFlag ∧
    (GPIO_EVEN_IRQHandler s).buttonFlags &&& buttonExtIntThreadFlag ≠ 0 ∧
    (GPIO_EVEN_IRQHandler s).ien = s.ien := by
  have hrun : GPIO_EVEN_IRQHandler s =
      { s with ifReg := GPIO_IntClearOp ESWGPIO_EXTI_IF s.ifReg,
               buttonFlags := s.buttonFlags ||| buttonExtIntThreadFlag } := by
    simp [GPIO_EVEN_IRQHandler, h]
  rw [hrun]
  refine ⟨?_, ?_, rfl, ?_, rfl⟩
  · rw [GPIO_IntClearOp, Nat.testBit_and, clearMask_testBit]
    simp
  · intro i hi
    rw [GPIO_IntClearOp, Nat.testBit_and, clearMask_testBit]
    cases Decidable.em (i < 32) with
    | inl hlt => simp [hlt, hi]
    | inr hge =>
      have hbig : s.ifReg.testBit i = false := by
        refine Nat.testBit_lt_two_pow (Nat.lt_of_lt_of_le hw ?_)
        exact Nat.pow_le_pow_right (by omega) (by omega)
      simp [hbig]
  · simp only [buttonExtIntThreadFlag]
    rw [Nat.and_one_is_mod]
    have h0 : (s.buttonFlags ||| 1).testBit 0 = true := by
      rw [Nat.testBit_or]; simp
    rw [Nat.testBit_zero] at h0
    simp only [decide_eq_true_eq] at h0
    omega

/-- C2 witness: on the concrete state with IF = IEN = 0x10 and no flag
pending, the handler clears bit 4 of IF and posts the notification
flag. -/
theorem irq_handler_button_pending_frame_witness :
    ((⟨0x10, 0x10, 0⟩ : SysState).ifReg < 2 ^ 32 ∧
      GPIO_IntGetEnabled ⟨0x10, 0x10, 0⟩ &&& ESWGPIO_EXTI_IF ≠ 0) ∧
    (GPIO_EVEN_IRQHandler ⟨0x10, 0x10, 0⟩).ifReg.testBit 4 = false ∧
    (GPIO_EVEN_IRQHandler ⟨0x10, 0x10, 0⟩).buttonFlags
      = 0 ||| buttonExtIntThreadFlag :=
  ⟨⟨by decide, by decide⟩,
    (irq_handler_button_pending_frame ⟨0x10, 0x10, 0⟩ (by decide) (by decide)).1,
    (irq_handler_button_pending_frame ⟨0x10, 0x10, 0⟩ (by decide) (by decide)).2.2.1⟩

/-- C3: if the pending-and-enabled register does not contain the
button's EXTI bit, the handler changes nothing at all: no flag is
raised, no pending bit is cleared, the state is returned untouched. -/
theorem irq_handler_foreign_pending_noop (s : SysState)
    (h : GPIO_IntGetEnabled s &&& ESWGPIO_EXTI_IF = 0) :
    GPIO_EVEN_IRQHandler s = s := by
  simp [GPIO_EVEN_IRQHandler, h]

/-- C3 witness: the handler is a no-op on the concrete state with empty
IF and IEN registers. -/
theorem irq_handler_foreign_pending_noop_witness :
    GPIO_IntGetEnabled ⟨0, 0, 0⟩ &&& ESWGPIO_EXTI_IF = 0 ∧
    GPIO_EVEN_IRQHandler ⟨0, 0, 0⟩ = ⟨0, 0, 0⟩ :=
  ⟨by decide, irq_handler_foreign_pending_noop ⟨0, 0, 0⟩ (by decide)⟩

/-- Program points of the `button_loop` body: about to execute
`osThreadFlagsClear` (clearing any stale notification), blocked in
`osThreadFlagsWait`, or about to run the reaction (`info1`). -/
inductive ConsumerPC
  | atClear
  | atWait
  | atReact
deriving DecidableEq, Repr

/-- State of the Signal Consumer system: the consumer's program point
together with the button thread's flag word. -/
structure LoopState where
  pc : ConsumerPC
  flags : Nat
deriving DecidableEq, Repr

/-- Embedding of clearing the button notification flag from a flag
word, as done by `osThreadFlagsClear` and by the auto-clear of
`osThreadFlagsWait` on wake. -/
def clearNotif (f : Nat) : Nat := f &&& (mask32 ^^^ buttonExtIntThreadFlag)

/-- Embedding of `osThreadFlagsSet buttonThreadId buttonExtIntThreadFlag`,
the raise performed by the interrupt handler: a bitwise or, so a raise
on an already-pending flag word accumulates nothing. -/
def raiseNotif (f : Nat) : Nat := f ||| buttonExtIntThreadFlag

/-- Small-step relation of the `button_loop` system. The `irq` step is
the asynchronous raise by `GPIO_EVEN_IRQHandler` and may fire at any
program point; `clearStale` is the `osThreadFlagsClear` at the top of
the loop body; `wake` is `osThreadFlagsWait` returning, which requires
the notification flag to be pending and atomically clears it
(`osFlagsWaitAny` auto-clear semantics); `loopBack` returns to the top
of the loop after the reaction. -/
inductive ConsumerStep : LoopState → LoopState → Prop
  | irq (s : LoopState) : ConsumerStep s ⟨s.pc, raiseNotif s.flags⟩
  | clearStale (f : Nat) :
      ConsumerStep ⟨ConsumerPC.atClear, f⟩ ⟨ConsumerPC.atWait, clearNotif f⟩
  | wake (f : Nat) (h : f &&& buttonExtIntThreadFlag ≠ 0) :
      ConsumerStep ⟨ConsumerPC.atWait, f⟩ ⟨ConsumerPC.atReact, clearNotif f⟩
  | loopBack (f : Nat) :
      ConsumerStep ⟨ConsumerPC.atReact, f⟩ ⟨ConsumerPC.atClear, f⟩

/-- Helper: clearing the notification flag really leaves it clear. -/
theorem clearNotif_and_flag (f : Nat) :
    clearNotif f &&& buttonExtIntThreadFlag = 0 := by
  rw [clearNotif, Nat.and_assoc]
  have hm : (mask32 ^^^ buttonExtIntThreadFlag) &&& buttonExtIntThreadFlag = 0 := by
    decide
  rw [hm, Nat.and_zero]

/-- Helper: with the notification flag clear, the wait cannot return:
no step from `atWait` reaches `atReact`. -/
theorem no_wake_of_clear (g : Nat) (hg : g &&& buttonExtIntThreadFlag = 0)
    (t : Nat) : ¬ ConsumerStep ⟨ConsumerPC.atWait, g⟩ ⟨ConsumerPC.atReact, t⟩ := by
  intro hstep
  cases hstep with
  | wake _ h => exact h hg

/-- C4: whenever the consumer takes the step that wakes it from
`osThreadFlagsWait` (the only step from the waiting point to the
reaction point), the notification flag is clear in the resulting state,
and consequently a wait executed immediately afterwards on that flag
word cannot return until a new raise occurs. -/
theorem consumer_wake_autoclears (s t : LoopState)
    (hstep : ConsumerStep s t)
    (hs : s.pc = ConsumerPC.atWait) (ht : t.pc = ConsumerPC.atReact) :
    t.flags &&& buttonExtIntThreadFlag = 0 ∧
    ∀ u : Nat, ¬ ConsumerStep ⟨ConsumerPC.atWait, t.flags⟩ ⟨ConsumerPC.atReact, u⟩ := by
  cases hstep with
  | irq s =>
    rw [hs] at ht
    exact absurd ht (by simp)
  | clearStale f => exact absurd ht (by simp)
  | wake f h =>
    refine ⟨clearNotif_and_flag f, ?_⟩
    intro u
    exact no_wake_of_clear (clearNotif f) (clearNotif_and_flag f) u
  | loopBack f => exact absurd ht (by simp)

/-- C4 witness: a concrete wake step from flag word 1 yields a state
whose notification flag is clear. -/
theorem consumer_wake_autoclears_witness :
    ConsumerStep ⟨ConsumerPC.atWait, 1⟩ ⟨ConsumerPC.atReact, clearNotif 1⟩ ∧
    clearNotif 1 &&& buttonExtIntThreadFlag = 0 := by
  have hstep : ConsumerStep ⟨ConsumerPC.atWait, 1⟩ ⟨ConsumerPC.atReact, clearNotif 1⟩ :=
    ConsumerStep.wake 1 (by decide)
  exact ⟨hstep, (consumer_wake_autoclears _ _ hstep rfl rfl).1⟩

/-- Helper: raising the flag on a word where it is already pending
changes nothing. -/
theorem raiseNotif_pending_eq (f : Nat)
    (h : f &&& buttonExtIntThreadFlag ≠ 0) : raiseNotif f = f := by
  rw [raiseNotif]
  apply Nat.eq_of_testBit_eq
  intro i
  rw [Nat.testBit_or]
  have h1 : buttonExtIntThreadFlag = 2 ^ 0 := by decide
  rw [h1, Nat.testBit_two_pow]
  cases Decidable.em (i = 0) with
  | inl h0 =>
    subst h0
    have hz : f % 2 ≠ 0 := by
      intro hz
      apply h
      rw [buttonExtIntThreadFlag, Nat.and_one_is_mod, hz]
    have : f.testBit 0 = true := by
      rw [Nat.testBit_zero]
      simp only [decide_eq_true_eq]
      omega
    simp [this]
  | inr h0 => simp [Ne.symm h0]

/-- C5: if the notification flag is already pending in the flag word,
a further raise is idempotent: it leaves the word unchanged, the flag
still holds exactly one pending notification (its single bit), the
consumer's wait can return once, and after that single wake the flag is
clear so no second wake can happen without a new raise. -/
theorem notification_raise_idempotent (f : Nat)
    (h : f &&& buttonExtIntThreadFlag ≠ 0) :
    raiseNotif f = f ∧
    raiseNotif (raiseNotif f) = raiseNotif f ∧
    raiseNotif f &&& buttonExtIntThreadFlag ≠ 0 ∧
    ConsumerStep ⟨ConsumerPC.atWait, raiseNotif f⟩
      ⟨ConsumerPC.atReact, clearNotif (raiseNotif f)⟩ ∧
    ∀ u : Nat, ¬ ConsumerStep ⟨ConsumerPC.atWait, clearNotif (raiseNotif f)⟩
      ⟨ConsumerPC.atReact, u⟩ := by
  have he : raiseNotif f = f := raiseNotif_pending_eq f h
  refine ⟨he, by rw [he, he], by rw [he]; exact h, ?_, ?_⟩
  · rw [he]
    exact ConsumerStep.wake f h
  · intro u
    exact no_wake_of_clear _ (clearNotif_and_flag _) u

/-- C5 witness: with flag word 1 (flag pending), the raise is the
identity. -/
theorem notification_raise_idempotent_witness :
    (1 : Nat) &&& buttonExtIntThreadFlag ≠ 0 ∧ raiseNotif 1 = 1 :=
  ⟨by decide, (notification_raise_idempotent 1 (by decide)).1⟩

/-- Helper: the counter of `led0_loop` after `n` transitions is `n`
reduced modulo the 32-bit width. -/
theorem led0_counter (n : Nat) : (led0_run n).1 = n % 2 ^ 32 := by
  induction n with
  | zero => simp [led0_run]
  | succ n ih =>
    have hm : (2 : Nat) ^ 32 = 4294967296 := by norm_num
    rw [led0_run, Function.iterate_succ_apply'] at *
    rw [led0_step]
    simp only []
    rw [ih, hm] at *
    omega

/-- Helper: the pin level written by the (n+1)-st transition of
`led0_loop` is HIGH exactly when the counter value `n` it observed was
even. -/
theorem led0_pin (n : Nat) : (led0_run (n + 1)).2 = decide (n % 2 = 0) := by
  rw [led0_run, Function.iterate_succ_apply']
  have hc : (led0_step^[n] (0, false)).1 = n % 2 ^ 32 := led0_counter n
  rw [led0_step]
  simp only [hc]
  have hd : n % 2 ^ 32 % 2 = n % 2 :=
    Nat.mod_mod_of_dvd n (dvd_pow_self 2 (by omega))
  rw [hd]
  rcases Nat.mod_two_eq_zero_or_one n with h | h <;> simp [h]

/-- C6: `led0_loop` starts with counter 0 and pin LOW; the transition
executed with an even counter drives the pin HIGH and with an odd
counter drives it LOW; the counter is incremented (with 32-bit
wraparound) after each transition; hence the first transition sets the
pin HIGH, the second LOW, and the pin pattern repeats with period two
transitions. -/
theorem led0_alternate_by_counter (n : Nat) :
    led0_run 0 = (0, false) ∧
    (led0_run n).1 = n % 2 ^ 32 ∧
    (led0_run (n + 1)).2 = decide (n % 2 = 0) ∧
    (led0_run 1).2 = true ∧
    (led0_run 2).2 = false ∧
    (led0_run (n + 3)).2 = (led0_run (n + 1)).2 := by
  refine ⟨rfl, led0_counter n, led0_pin n, ?_, ?_, ?_⟩
  · have h := led0_pin 0
    simpa using h
  · have h := led0_pin 1
    simpa using h
  · rw [led0_pin n, show n + 3 = (n + 2) + 1 by omega, led0_pin (n + 2)]
    rw [Nat.add_mod_right]

/-- Primitive events of the buzzer reaction pattern: a pin toggle of
the buzzer output, or a kernel sleep of the given number of ticks. -/
inductive Ev
  | toggle
  | delay (ticks : Nat)
deriving DecidableEq, BEq, Repr

/-- A pin action: given the current buzzer pin output level, it yields
the final level together with the ordered trace of toggle and delay
events it performs. -/
def PinAct : Type := Bool → Bool × List Ev

/-- Embedding of `GPIO_PinOutToggle` on the buzzer pin. -/
def actToggle : PinAct := fun b => (!b, [Ev.toggle])

/-- Embedding of `osDelay t`. -/
def actDelay (t : Nat) : PinAct := fun b => (b, [Ev.delay t])

/-- Sequential composition of two pin actions: run the first, feed its
final level to the second and concatenate the traces in order. -/
def actSeq (f g : PinAct) : PinAct := fun b =>
  let r1 := f b
  let r2 := g r1.1
  (r2.1, r1.2 ++ r2.2)

/-- Embedding of `for (int i = 0; i < n; i++) body`: the body action
repeated `n` times in sequence. -/
def actRep : Nat → PinAct → PinAct
  | 0, _ => fun b => (b, [])
  | n + 1, f => actSeq f (actRep n f)

/-- Embedding of `siren_sound` from src/main.c line by line: a loop of
100 iterations each doing `osDelay(2)` then a toggle, then
`osDelay(50)`, then a loop of 50 iterations each doing `osDelay(4)`
then a toggle, then `osDelay(50)`. -/
def siren_sound : PinAct :=
  actSeq (actRep 100 (actSeq (actDelay 2) actToggle))
    (actSeq (actDelay 50)
      (actSeq (actRep 50 (actSeq (actDelay 4) actToggle)) (actDelay 50)))

/-- Embedding of `ambulance_sound` from the second variant, whose body
is the same sequence of loops and delays as `siren_sound`. -/
def ambulance_sound : PinAct :=
  actSeq (actRep 100 (actSeq (actDelay 2) actToggle))
    (actSeq (actDelay 50)
      (actSeq (actRep 50 (actSeq (actDelay 4) actToggle)) (actDelay 50)))

/-- The event trace the code of `siren_sound` actually produces: in
each iteration the delay comes BEFORE the toggle. -/
def sirenCodeTrace : List Ev :=
  (List.replicate 100 [Ev.delay 2, Ev.toggle]).flatten ++ [Ev.delay 50] ++
    (List.replicate 50 [Ev.delay 4, Ev.toggle]).flatten ++ [Ev.delay 50]

/-- Modelled from the spec: the event sequence the claim words describe,
"repeat toggle-then-sleep(2) for 100 iterations, sleep(50), repeat
toggle-then-sleep(4) for 50 iterations, sleep(50)" — in each iteration
the toggle comes before the delay. Written down only to compare with
the trace of the code. -/
def sirenClaimedTrace : List Ev :=
  (List.replicate 100 [Ev.toggle, Ev.delay 2]).flatten ++ [Ev.delay 50] ++
    (List.replicate 50 [Ev.toggle, Ev.delay 4]).flatten ++ [Ev.delay 50]

/-- Embedding of one iteration of the `buzzer_tone` polling loop as a
function of the sampled input pin level: when `GPIO_PinInGet` reads 0
(LOW, button pressed) the reaction pattern runs; otherwise the
iteration performs nothing at all — in particular no delay, so the
loop immediately samples again (busy polling). -/
def buzzer_tone_iter (input : Bool) : PinAct :=
  fun b => if input = false then siren_sound b else (b, [])

/-- `k` consecutive iterations of the `buzzer_tone` loop while the
input pin reads the same level throughout. -/
def buzzer_run (input : Bool) : Nat → PinAct
  | 0 => fun b => (b, [])
  | k + 1 => actSeq (buzzer_tone_iter input) (buzzer_run input k)

/-- Helper: the reaction pattern neither reads nor depends on anything
but the buzzer pin, produces the fixed code trace, and returns the pin
to its starting level (150 toggles, an even number). -/
theorem siren_sound_eval (b : Bool) :
    siren_sound b = (b, sirenCodeTrace) := by
  cases b
  · decide
  · decide

/-- C7 counterexample: the trace the code produces is not the claimed
toggle-then-sleep sequence — already its first event differs (the code
sleeps 2 ticks before the first toggle). -/
theorem siren_trace_ne_claimed :
    (siren_sound false).2 ≠ sirenClaimedTrace ∧
    (siren_sound false).2.head? = some (Ev.delay 2) ∧
    sirenClaimedTrace.head? = some Ev.toggle := by
  refine ⟨?_, ?_, ?_⟩
  · decide
  · decide
  · decide

/-- C7 (amended): each invocation of the pattern executes exactly:
repeat sleep(2 ticks)-then-toggle for 100 iterations, sleep(50 ticks),
repeat sleep(4 ticks)-then-toggle for 50 iterations, sleep(50 ticks);
the trace depends on no external state (it is the same for every
starting pin level) and the pattern is a total function, so it runs to
completion once invoked; `ambulance_sound` of the second variant
executes the identical sequence. -/
theorem siren_pattern_sequence (b : Bool) :
    (siren_sound b).2 = sirenCodeTrace ∧
    ambulance_sound b = siren_sound b := by
  cases b
  · exact ⟨by decide, by decide⟩
  · exact ⟨by decide, by decide⟩

/-- C10: a complete invocation of the reaction pattern performs 150
toggles — an even number — so for every starting level the buzzer pin
ends the invocation at exactly the level it started with. -/
theorem siren_pattern_restores_pin (b : Bool) :
    (siren_sound b).1 = b ∧
    (siren_sound b).2.count Ev.toggle = 150 ∧
    (ambulance_sound b).1 = b := by
  cases b
  · exact ⟨by decide, by decide, by decide⟩
  · exact ⟨by decide, by decide, by decide⟩

/-- C8: an iteration of the polling loop that samples the input HIGH
does nothing — no reaction, no sleep, no pin change — so the loop goes
straight back to sampling (busy polling, never blocking); an iteration
that samples LOW invokes exactly one complete reaction pattern; and
while the pin is held LOW, `k` iterations produce exactly `k`
back-to-back copies of the pattern trace with no events in between. -/
theorem buzzer_tone_polling (b : Bool) (k : Nat) :
    buzzer_tone_iter true b = (b, []) ∧
    buzzer_tone_iter false b = siren_sound b ∧
    buzzer_run true k b = (b, []) ∧
    buzzer_run false k b = (b, (List.replicate k sirenCodeTrace).flatten) := by
  refine ⟨by simp [buzzer_tone_iter], by simp [buzzer_tone_iter], ?_, ?_⟩
  · induction k with
    | zero => rfl
    | succ k ih =>
      rw [buzzer_run, actSeq]
      simp [buzzer_tone_iter, ih]
  · induction k with
    | zero => rfl
    | succ k ih =>
      rw [buzzer_run, actSeq]
      simp [buzzer_tone_iter, siren_sound_eval, ih, List.replicate_succ]

/-- Configuration calls the startup sequence issues for the external
interrupt, in source order. -/
inductive CfgEv
  | pinModeSet
  | intDisable
  | extIntConfig
  | inputSenseSet
  | intClear
  | nvicEnableIRQ
  | nvicSetPriority (p : Nat)
  | intEnable
deriving DecidableEq, Repr

/-- Embedding of `gpio_external_interrupt_init` as the ordered list of
configuration calls it performs: `GPIO_PinModeSet` (input, pull-up,
filter), `GPIO_IntDisable`, `GPIO_ExtIntConfig` (falling edge, not yet
enabled), `GPIO_InputSenseSet`. -/
def gpio_external_interrupt_init : List CfgEv :=
  [CfgEv.pinModeSet, CfgEv.intDisable, CfgEv.extIntConfig, CfgEv.inputSenseSet]

/-- Embedding of `gpio_external_interrupt_enable` as the ordered list
of configuration calls it performs: `GPIO_IntClear`, `NVIC_EnableIRQ`,
`NVIC_SetPriority 3`, `GPIO_IntEnable`. -/
def gpio_external_interrupt_enable : List CfgEv :=
  [CfgEv.intClear, CfgEv.nvicEnableIRQ, CfgEv.nvicSetPriority 3, CfgEv.intEnable]

/-- The full startup sequence for the external interrupt: `hp_loop`
calls `gpio_external_interrupt_init` and, after spawning the button
thread, `gpio_external_interrupt_enable` (no interrupt-related call
happens in between). -/
def startup_config : List CfgEv :=
  gpio_external_interrupt_init ++ gpio_external_interrupt_enable

/-- The interrupt-relevant configuration state: whether the EXTI source
is enabled in the GPIO IEN register, whether the NVIC line is unmasked,
whether the EXTI pending flag is set, whether the pin mode and the
edge-detect logic have been configured, and the NVIC priority if one
has been assigned. -/
structure IrqCfgState where
  intEnabled : Bool
  nvicEnabled : Bool
  pendingFlag : Bool
  pinConfigured : Bool
  edgeConfigured : Bool
  priority : Option Nat
deriving DecidableEq, Repr

/-- Effect of one configuration call on the configuration state.
`extIntConfig` is called with its enable argument false, so it
configures the edge-detect logic without enabling the interrupt. -/
def applyCfg (s : IrqCfgState) : CfgEv → IrqCfgState
  | CfgEv.pinModeSet => { s with pinConfigured := true }
  | CfgEv.intDisable => { s with intEnabled := false }
  | CfgEv.extIntConfig => { s with edgeConfigured := true }
  | CfgEv.inputSenseSet => s
  | CfgEv.intClear => { s with pendingFlag := false }
  | CfgEv.nvicEnableIRQ => { s with nvicEnabled := true }
  | CfgEv.nvicSetPriority p => { s with priority := some p }
  | CfgEv.intEnable => { s with intEnabled := true }

/-- The state at power-on reset: the EXTI source and the NVIC line are
disabled (their registers reset to 0), nothing is configured, no
priority has been assigned, and the pending flag may hold an arbitrary
stale value. -/
def resetCfgState (stalePending : Bool) : IrqCfgState :=
  ⟨false, false, stalePending, false, false, none⟩

/-- The configuration state reached after the first `i` calls of the
startup sequence, starting from reset with the given stale pending
flag. -/
def cfgStateAt (stale : Bool) (i : Nat) : IrqCfgState :=
  (startup_config.take i).foldl applyCfg (resetCfgState stale)

/-- C9: in every execution of the startup sequence (for either value of
the stale pending flag): the pin-mode call (index 0) and the
edge-detect call (index 2) both execute while the interrupt is disabled
at the GPIO and NVIC level, and indeed the interrupt stays disabled at
the GPIO level throughout indices 0..7 and at the NVIC level throughout
indices 0..4, i.e. until configuration is complete; the stale pending
flag is cleared (index 4) before the NVIC unmask (index 5) and before
the GPIO-level enable (index 7), both of which execute with the pin
and edge configuration already complete and the pending flag clear;
and the final enable executes with the priority already defined
(set to 3 at index 6). -/
theorem startup_two_phase_enable (stale : Bool) :
    startup_config.get? 0 = some CfgEv.pinModeSet ∧
    startup_config.get? 2 = some CfgEv.extIntConfig ∧
    startup_config.get? 4 = some CfgEv.intClear ∧
    startup_config.get? 5 = some CfgEv.nvicEnableIRQ ∧
    startup_config.get? 7 = some CfgEv.intEnable ∧
    (∀ i, i ≤ 7 → (cfgStateAt stale i).intEnabled = false) ∧
    (∀ i, i ≤ 5 → (cfgStateAt stale i).nvicEnabled = false) ∧
    (cfgStateAt stale 5).pendingFlag = false ∧
    (cfgStateAt stale 5).pinConfigured = true ∧
    (cfgStateAt stale 5).edgeConfigured = true ∧
    (cfgStateAt stale 7).pendingFlag = false ∧
    (cfgStateAt stale 7).pinConfigured = true ∧
    (cfgStateAt stale 7).edgeConfigured = true ∧
    (cfgStateAt stale 7).priority = some 3 ∧
    (cfgStateAt stale 8).intEnabled = true := by
  cases stale
  · decide
  · decide
